import Mathlib

/-!
# The stage driver of the RPC generator (`rpc/generator/gen.go`)

`Generator.Generate` is a straight-line driver: it calls a fixed sequence of
collaborators (path helpers, the proto merger, the parser, the file emitters,
external commands), most of them followed by `if err != nil { return err }`.

The embedding keeps the collaborators abstract.  An environment `Env` fixes, for
every call site of `Generate`, the error that the call returns (`none` is Go's
`nil`), together with the values the successful calls hand back.  `Generate` is
then a pure function from the environment, the generator and the request to the
list of call sites that were executed, in order, and the returned error.
-/

namespace generator

/-! ## Errors -/

/-- Go `error` values.  `val id` is an error value of a collaborator's own kind,
identified by `id`.  `errorString addr s` is the pointer `&errorString{s}` that
`errors.New(s)` returns, `addr` being its address: Go compares such values by
address, so two results of `errors.New` with the same text are different values.
`wrapError addr msg err` is the pointer that `fmt.Errorf` with `%w` returns, an
error that wraps `err`.  `Option GoError` is a Go `error`, `none` being `nil`. -/
inductive GoError where
  | val (id : Nat)
  | errorString (addr : Nat) (s : String)
  | wrapError (addr : Nat) (msg : String) (err : GoError)
  deriving DecidableEq, Repr

/-- Go `errors.Is(err, target)`: compare `err` with `target`, then the error it
wraps, and so on along the chain.  An `errorString` wraps nothing. -/
def errorsIs : GoError → GoError → Bool
  | .val i, target => GoError.val i == target
  | .errorString a s, target => GoError.errorString a s == target
  | .wrapError a m e, target => GoError.wrapError a m e == target || errorsIs e target

/-- The largest address held by an error value and the errors it wraps. -/
def GoError.maxAddr : GoError → Nat
  | .val _ => 0
  | .errorString a _ => a
  | .wrapError a _ e => max a e.maxAddr

/-! ## The request and the generator -/

/-- The request record `ZRpcContext` (gen.go lines 21-62). -/
structure ZRpcContext where
  Src : String
  ProtocCmd : String
  ProtoGenGrpcDir : String
  ProtoGenGoDir : String
  IsGooglePlugin : Bool
  GoOutput : String
  GrpcOutput : String
  Output : String
  Multiple : Bool
  Schema : String
  Ent : Bool
  ModuleName : String
  Port : Int
  MakeFile : Bool
  DockerFile : Bool
  UseDescDir : Bool
  RpcName : String
  I18n : Bool
  IsGenClient : Bool
  IsNewProject : Bool

/-- The part of the generator configuration `g.cfg` that `Generate` reads. -/
structure Config where
  NamingFormat : String

/-- The receiver of `Generate`. -/
structure Generator where
  cfg : Config

/-! ## Call sites -/

/-- The call sites of `Generate` whose error result the function receives, one
constructor per call in the source, in source order.  Console output
(`color.Green.Println`, `MarkDone`), the query `pathx.Exists` and the constructor
`parser.NewDefaultProtoParser` return no error and are not call sites here. -/
inductive Site where
  | AbsOutput            -- line 70   filepath.Abs(zctx.Output)
  | MkdirRoot            -- line 75   pathx.MkdirIfNotExist(abs)
  | AbsSrc               -- line 84   filepath.Abs(zctx.Src)
  | MergeProto           -- line 89   proto2.MergeProto(...)
  | Prepare              -- line 97   g.Prepare()
  | RunGoModInit         -- line 103  execx.Run("go mod init "+zctx.ModuleName, abs)
  | ctxPrepare           -- line 109  ctx.Prepare(abs)
  | Parse                -- line 115  p.Parse(zctx.Src, zctx.Multiple)
  | mkdir                -- line 120  mkdir(projectCtx, proto, g.cfg, zctx)
  | GenEtc               -- line 125
  | GenPb                -- line 130
  | GenConfig            -- line 135
  | GenSvc               -- line 140
  | GenLogic             -- line 145
  | GenServer            -- line 150
  | GenMain              -- line 155
  | GenCall              -- line 161
  | RunMakefile          -- line 174  execx.Run(makefileCmd, abs)
  | RunDocker            -- line 182  execx.Run("goctls docker ...", abs)
  | GenBaseDesc          -- line 186
  | RunEntNew            -- line 194  execx.Run("go run -mod=mod entgo.io/ent/cmd/ent new ...", abs)
  | RunGoModTidy         -- line 200  execx.Run("go mod tidy", abs)
  | RunEntGenerate       -- line 205  execx.Run("go run -mod=mod entgo.io/ent/cmd/ent generate ./ent/schema", abs)
  | MkdirEntTemplate     -- line 210  pathx.MkdirIfNotExist(<abs>/ent/template)
  | RunEntTemplatePagination  -- line 215
  | RunEntTemplateSetNotNil   -- line 220
  | RemoveSchema         -- line 225  fileutil.RemoveFile(...)
  | GenErrorHandler      -- line 232
  | GenEntTx             -- line 238
  | RunGoModTidyFinal    -- line 243  execx.Run("go mod tidy", abs)
  | RunProjectUpgrade    -- line 250  execx.Run("goctls project upgrade", abs)
  | GenEntInitCode       -- line 255
  | WriteGitignore       -- line 261  fileutil.WriteStringToFile(<abs>/.gitignore, ...)
  deriving DecidableEq, Repr

/-- The source line of each call site. -/
def Site.line : Site → Nat
  | .AbsOutput => 70
  | .MkdirRoot => 75
  | .AbsSrc => 84
  | .MergeProto => 89
  | .Prepare => 97
  | .RunGoModInit => 103
  | .ctxPrepare => 109
  | .Parse => 115
  | .mkdir => 120
  | .GenEtc => 125
  | .GenPb => 130
  | .GenConfig => 135
  | .GenSvc => 140
  | .GenLogic => 145
  | .GenServer => 150
  | .GenMain => 155
  | .GenCall => 161
  | .RunMakefile => 174
  | .RunDocker => 182
  | .GenBaseDesc => 186
  | .RunEntNew => 194
  | .RunGoModTidy => 200
  | .RunEntGenerate => 205
  | .MkdirEntTemplate => 210
  | .RunEntTemplatePagination => 215
  | .RunEntTemplateSetNotNil => 220
  | .RemoveSchema => 225
  | .GenErrorHandler => 232
  | .GenEntTx => 238
  | .RunGoModTidyFinal => 243
  | .RunProjectUpgrade => 250
  | .GenEntInitCode => 255
  | .WriteGitignore => 261

/-- All the call sites, in source order. -/
def allSites : List Site :=
  [.AbsOutput, .MkdirRoot, .AbsSrc, .MergeProto, .Prepare, .RunGoModInit, .ctxPrepare, .Parse,
   .mkdir, .GenEtc, .GenPb, .GenConfig, .GenSvc, .GenLogic, .GenServer, .GenMain, .GenCall,
   .RunMakefile, .RunDocker, .GenBaseDesc, .RunEntNew, .RunGoModTidy, .RunEntGenerate,
   .MkdirEntTemplate, .RunEntTemplatePagination, .RunEntTemplateSetNotNil, .RemoveSchema,
   .GenErrorHandler, .GenEntTx, .RunGoModTidyFinal, .RunProjectUpgrade, .GenEntInitCode,
   .WriteGitignore]

/-! ## The environment -/

/-- What the collaborators do in one run.  `outcome s` is the error returned by
the call at site `s` when it is executed (`none` for `nil`); the other fields are
the values of the library functions and of the successful calls that `Generate`
passes on. -/
structure Env where
  /-- the error returned by the call at each site -/
  outcome : Site → Option GoError
  /-- the path returned by `filepath.Abs` when it succeeds -/
  filepathAbs : String → String
  /-- the function `filepath.Join` -/
  filepathJoin : List String → String
  /-- the query `pathx.Exists` -/
  pathExists : String → Bool
  /-- the value of `dirCtx.GetServiceName().ToCamel()`, `dirCtx` being the plan returned by `mkdir` -/
  serviceNameCamel : String
  /-- the value of `dirCtx.GetServiceName().Lower()` -/
  serviceNameLower : String
  /-- the constant `new2.GitIgnoreTmpl` of package `api/new` -/
  GitIgnoreTmpl : String

/-- An address that no error value returned by a collaborator in this run holds:
where `errors.New` puts the value it allocates. -/
def freshAddr (env : Env) : Nat :=
  (allSites.map fun s =>
    match env.outcome s with
    | some e => e.maxAddr
    | none => 0).foldr max 0 + 1

/-- Go `errors.New(msg)`: a newly allocated `errorString`. -/
def errorsNew (env : Env) (msg : String) : GoError :=
  .errorString (freshAddr env) msg

/-! ## Arguments of the calls -/

/-- A call together with the arguments that `Generate` computes for it.  The file
emitters all receive `(dirCtx, proto, g.cfg, zctx)`, which their constructor does
not repeat. -/
inductive Call where
  | filepathAbs (path : String)
  | MkdirIfNotExist (dir : String)
  | MergeProto (ProtoDir OutputPath : String)
  | Prepare
  | execxRun (arg dir : String)
  | ctxPrepare (dir : String)
  | Parse (src : String) (multiple : Bool)
  | emitter (site : Site)
  | RemoveFile (path : String)
  | GenEntInitCode (abs : String)
  | WriteStringToFile (path content : String) (append : Bool)
  deriving DecidableEq, Repr

/-- The local `abs` (line 70). -/
def absOf (env : Env) (zctx : ZRpcContext) : String :=
  env.filepathAbs zctx.Output

/-- The local `protoDir` (line 81): `filepath.Join(abs, "desc")`. -/
def protoDir (env : Env) (zctx : ZRpcContext) : String :=
  env.filepathJoin [absOf env zctx, "desc"]

/-- The local `makefileCmd` as it stands at line 174 (lines 165-172). -/
def makefileCmd (g : Generator) (zctx : ZRpcContext) : String :=
  let makefileCmd := "goctls extra makefile -t " ++ "rpc" ++ " -s " ++ g.cfg.NamingFormat ++ " -n " ++ zctx.RpcName
  let makefileCmd := if zctx.I18n then makefileCmd ++ " -i" else makefileCmd
  let makefileCmd := if zctx.Ent then makefileCmd ++ " -e" else makefileCmd
  makefileCmd

/-- The call made at each site, with its arguments. -/
def callAt (env : Env) (g : Generator) (zctx : ZRpcContext) : Site → Call
  | .AbsOutput => .filepathAbs zctx.Output
  | .MkdirRoot => .MkdirIfNotExist (absOf env zctx)
  | .AbsSrc => .filepathAbs zctx.Src
  | .MergeProto => .MergeProto (protoDir env zctx) (env.filepathAbs zctx.Src)
  | .Prepare => .Prepare
  | .RunGoModInit => .execxRun ("go mod init " ++ zctx.ModuleName) (absOf env zctx)
  | .ctxPrepare => .ctxPrepare (absOf env zctx)
  | .Parse => .Parse zctx.Src zctx.Multiple
  | .RunMakefile => .execxRun (makefileCmd g zctx) (absOf env zctx)
  | .RunDocker =>
      .execxRun ("goctls docker -p " ++ toString zctx.Port ++ " -s " ++ zctx.RpcName ++ " -t rpc -l")
        (absOf env zctx)
  | .RunEntNew =>
      .execxRun ("go run -mod=mod entgo.io/ent/cmd/ent new " ++ env.serviceNameCamel) (absOf env zctx)
  | .RunGoModTidy => .execxRun "go mod tidy" (absOf env zctx)
  | .RunEntGenerate =>
      .execxRun "go run -mod=mod entgo.io/ent/cmd/ent generate ./ent/schema" (absOf env zctx)
  | .MkdirEntTemplate => .MkdirIfNotExist (env.filepathJoin [absOf env zctx, "ent", "template"])
  | .RunEntTemplatePagination => .execxRun "goctls extra ent template -a pagination" (absOf env zctx)
  | .RunEntTemplateSetNotNil => .execxRun "goctls extra ent template -a set_not_nil" (absOf env zctx)
  | .RemoveSchema =>
      .RemoveFile (env.filepathJoin
        [absOf env zctx, "/ent/schema/" ++ env.serviceNameLower.replace "_" "" ++ ".go"])
  | .RunGoModTidyFinal => .execxRun "go mod tidy" (absOf env zctx)
  | .RunProjectUpgrade => .execxRun "goctls project upgrade" (absOf env zctx)
  | .GenEntInitCode => .GenEntInitCode (absOf env zctx)
  | .WriteGitignore =>
      .WriteStringToFile (env.filepathJoin [absOf env zctx, ".gitignore"]) env.GitIgnoreTmpl false
  | s => .emitter s

/-! ## Execution state -/

/-- The state of one execution of `Generate`.  While the function is running it
holds the call sites executed so far, the function-level variable `err` and the
variable `err` that the blocks at lines 83-95 and 193-247 declare with `:=` (it
shadows the outer one inside the block); once a `return` has been executed it
holds the call sites executed and the value returned. -/
inductive State where
  | running (trace : List Site) (err errLocal : Option GoError)
  | returned (trace : List Site) (ret : Option GoError)
  deriving DecidableEq, Repr

/-- The state on entry. -/
def State.init : State := .running [] none none

/-- The call sites executed so far. -/
def State.trace : State → List Site
  | .running trace _ _ => trace
  | .returned trace _ => trace

/-- Statement `err = f(...)` (or `x, err = f(...)`, `x, err := f(...)` at function
level): execute the call at site `s` and store its error in `err`. -/
def State.call (env : Env) (s : Site) : State → State
  | .running trace _ errLocal => .running (trace ++ [s]) (env.outcome s) errLocal
  | st => st

/-- The same statement inside a block that declared its own `err`: the error goes
to the block-local variable. -/
def State.callLocal (env : Env) (s : Site) : State → State
  | .running trace err _ => .running (trace ++ [s]) err (env.outcome s)
  | st => st

/-- Statement `if err != nil { return err }`. -/
def State.retIfErr : State → State
  | .running trace (some e) _ => .returned trace (some e)
  | st => st

/-- Statement `if err != nil { return err }` on the block-local `err`. -/
def State.retIfErrLocal : State → State
  | .running trace _ (some e) => .returned trace (some e)
  | st => st

/-- Statement `if err != nil { return errors.New(msg) }`. -/
def State.retNewIfErr (env : Env) (msg : String) : State → State
  | .running trace (some _) _ => .returned trace (some (errorsNew env msg))
  | st => st

/-- Statement `if c { body }`. -/
def State.when (c : Bool) (body : State → State) (st : State) : State :=
  if c then body st else st

/-- The result of a run: the call sites executed, in order, and the error
returned. -/
structure Run where
  trace : List Site
  ret : Option GoError
  deriving DecidableEq, Repr

/-- The closing `return err` (line 268). -/
def State.returnErr : State → Run
  | .running trace err _ => ⟨trace, err⟩
  | .returned trace ret => ⟨trace, ret⟩

/-! ## Generate -/

set_option linter.unusedVariables false in
/-- The function `Generator.Generate` (gen.go lines 67-269), statement by
statement. -/
def Generate (env : Env) (g : Generator) (zctx : ZRpcContext) : Run :=
  let st := State.init
  -- 70-73
  let st := st.call env .AbsOutput
  let st := st.retIfErr
  -- 75-78
  let st := st.call env .MkdirRoot
  let st := st.retIfErr
  -- 81-95
  let st := st.when (env.pathExists (protoDir env zctx)) fun st =>
    let st := st.callLocal env .AbsSrc
    let st := st.retIfErrLocal
    let st := st.callLocal env .MergeProto
    st.retIfErrLocal
  -- 97-100
  let st := st.call env .Prepare
  let st := st.retIfErr
  -- 102-107
  let st := st.when (zctx.ModuleName != "") fun st =>
    let st := st.call env .RunGoModInit
    st.retIfErr
  -- 109-112
  let st := st.call env .ctxPrepare
  let st := st.retIfErr
  -- 114-118
  let st := st.call env .Parse
  let st := st.retIfErr
  -- 120-123
  let st := st.call env .mkdir
  let st := st.retIfErr
  -- 125-128
  let st := st.call env .GenEtc
  let st := st.retIfErr
  -- 130-133
  let st := st.call env .GenPb
  let st := st.retIfErr
  -- 135-138
  let st := st.call env .GenConfig
  let st := st.retIfErr
  -- 140-143
  let st := st.call env .GenSvc
  let st := st.retIfErr
  -- 145-148
  let st := st.call env .GenLogic
  let st := st.retIfErr
  -- 150-153
  let st := st.call env .GenServer
  let st := st.retIfErr
  -- 155-158
  let st := st.call env .GenMain
  let st := st.retIfErr
  -- 160-162
  let st := st.when zctx.IsGenClient fun st =>
    st.call env .GenCall
  -- 164-179
  let st := st.when zctx.MakeFile fun st =>
    let st := st.call env .RunMakefile
    st.retIfErr
  -- 181-183
  let st := st.when zctx.DockerFile fun st =>
    st.call env .RunDocker
  -- 185-190
  let st := st.when zctx.UseDescDir fun st =>
    let st := st.call env .GenBaseDesc
    st.retIfErr
  -- 193-247
  let st := st.when zctx.Ent fun st =>
    let st := st.callLocal env .RunEntNew
    let st := st.retIfErrLocal
    let st := st.callLocal env .RunGoModTidy
    let st := st.retIfErrLocal
    let st := st.callLocal env .RunEntGenerate
    let st := st.retIfErrLocal
    let st := st.callLocal env .MkdirEntTemplate
    let st := st.retIfErrLocal
    let st := st.callLocal env .RunEntTemplatePagination
    let st := st.retIfErrLocal
    let st := st.callLocal env .RunEntTemplateSetNotNil
    let st := st.retIfErrLocal
    let st := st.callLocal env .RemoveSchema
    let st := st.retIfErrLocal
    let st := st.callLocal env .GenErrorHandler
    let st := st.retIfErrLocal
    let st := st.callLocal env .GenEntTx
    let st := st.retIfErrLocal
    let st := st.callLocal env .RunGoModTidyFinal
    st.retIfErrLocal
  -- 249-259
  let st := st.when zctx.IsNewProject fun st =>
    let st := st.call env .RunProjectUpgrade
    let st := st.retIfErr
    let st := st.call env .GenEntInitCode
    st.retNewIfErr env "failed to generate ent init code"
  -- 261-264
  let st := st.call env .WriteGitignore
  let st := st.retIfErr
  -- 268
  st.returnErr

/-! ## The pipeline as a list of call sites

`Generate` is also the left-to-right execution of the enabled call sites, each
followed by what the source does with its error.  The theorems use this reading;
`Generate_eq_runSites` proves it equal to the function above. -/

/-- What the source does with the error of a call. -/
inductive Handling where
  | checked                 -- `err = f(); if err != nil { return err }`
  | checkedLocal            -- the same on the `err` declared inside the block
  | unchecked               -- `err = f()` with no test after it
  | replaced (msg : String) -- `err = f(); if err != nil { return errors.New(msg) }`
  deriving DecidableEq, Repr

/-- The handling of each call site, read off the statement that follows it. -/
def Site.handling : Site → Handling
  | .AbsSrc => .checkedLocal
  | .MergeProto => .checkedLocal
  | .GenCall => .unchecked
  | .RunDocker => .unchecked
  | .RunEntNew => .checkedLocal
  | .RunGoModTidy => .checkedLocal
  | .RunEntGenerate => .checkedLocal
  | .MkdirEntTemplate => .checkedLocal
  | .RunEntTemplatePagination => .checkedLocal
  | .RunEntTemplateSetNotNil => .checkedLocal
  | .RemoveSchema => .checkedLocal
  | .GenErrorHandler => .checkedLocal
  | .GenEntTx => .checkedLocal
  | .RunGoModTidyFinal => .checkedLocal
  | .GenEntInitCode => .replaced "failed to generate ent init code"
  | _ => .checked

/-- One call site together with the statement that follows it. -/
def State.step (env : Env) (s : Site) (st : State) : State :=
  match s.handling with
  | .checked => (st.call env s).retIfErr
  | .checkedLocal => (st.callLocal env s).retIfErrLocal
  | .unchecked => st.call env s
  | .replaced msg => (st.call env s).retNewIfErr env msg

/-- Execute a list of call sites from left to right. -/
def runSites (env : Env) (sites : List Site) (st : State) : State :=
  sites.foldl (fun st s => st.step env s) st

/-- The condition of the `if` that encloses a call site (`true` for the sites
outside every `if`). -/
def enabled (env : Env) (zctx : ZRpcContext) : Site → Bool
  | .AbsSrc => env.pathExists (protoDir env zctx)
  | .MergeProto => env.pathExists (protoDir env zctx)
  | .RunGoModInit => zctx.ModuleName != ""
  | .GenCall => zctx.IsGenClient
  | .RunMakefile => zctx.MakeFile
  | .RunDocker => zctx.DockerFile
  | .GenBaseDesc => zctx.UseDescDir
  | .RunEntNew => zctx.Ent
  | .RunGoModTidy => zctx.Ent
  | .RunEntGenerate => zctx.Ent
  | .MkdirEntTemplate => zctx.Ent
  | .RunEntTemplatePagination => zctx.Ent
  | .RunEntTemplateSetNotNil => zctx.Ent
  | .RemoveSchema => zctx.Ent
  | .GenErrorHandler => zctx.Ent
  | .GenEntTx => zctx.Ent
  | .RunGoModTidyFinal => zctx.Ent
  | .RunProjectUpgrade => zctx.IsNewProject
  | .GenEntInitCode => zctx.IsNewProject
  | _ => true

/-- The call sites that a run reaches when no `return` fires: the calls of the
source in order, those inside an `if` under its condition. -/
def pipeline (env : Env) (zctx : ZRpcContext) : List Site :=
  [.AbsOutput, .MkdirRoot]
    ++ (if env.pathExists (protoDir env zctx) then [.AbsSrc, .MergeProto] else [])
    ++ [.Prepare]
    ++ (if zctx.ModuleName != "" then [.RunGoModInit] else [])
    ++ [.ctxPrepare, .Parse, .mkdir, .GenEtc, .GenPb, .GenConfig, .GenSvc, .GenLogic, .GenServer,
        .GenMain]
    ++ (if zctx.IsGenClient then [.GenCall] else [])
    ++ (if zctx.MakeFile then [.RunMakefile] else [])
    ++ (if zctx.DockerFile then [.RunDocker] else [])
    ++ (if zctx.UseDescDir then [.GenBaseDesc] else [])
    ++ (if zctx.Ent then
          [.RunEntNew, .RunGoModTidy, .RunEntGenerate, .MkdirEntTemplate, .RunEntTemplatePagination,
           .RunEntTemplateSetNotNil, .RemoveSchema, .GenErrorHandler, .GenEntTx, .RunGoModTidyFinal]
        else [])
    ++ (if zctx.IsNewProject then [.RunProjectUpgrade, .GenEntInitCode] else [])
    ++ [.WriteGitignore]

/-- The error that `Generate` returns when the call at `s` returned `e` and the
statement after it fired. -/
def Site.surfaced (env : Env) (s : Site) (e : GoError) : GoError :=
  match s.handling with
  | .replaced msg => errorsNew env msg
  | _ => e

/-! ## Vocabulary of the properties -/

/-- The mandatory stages: the call sites of lines 70-158 (output root, proto
merge, toolchain and module preparation, project context, parse, directory plan
and the seven core file emitters). -/
def Site.mandatory : Site → Bool
  | .AbsOutput | .MkdirRoot | .AbsSrc | .MergeProto | .Prepare | .RunGoModInit | .ctxPrepare
  | .Parse | .mkdir | .GenEtc | .GenPb | .GenConfig | .GenSvc | .GenLogic | .GenServer
  | .GenMain => true
  | _ => false

/-- The persistence-layer steps: the call sites of the block at lines 193-247. -/
def Site.isEnt : Site → Bool
  | .RunEntNew | .RunGoModTidy | .RunEntGenerate | .MkdirEntTemplate | .RunEntTemplatePagination
  | .RunEntTemplateSetNotNil | .RemoveSchema | .GenErrorHandler | .GenEntTx
  | .RunGoModTidyFinal => true
  | _ => false

/-- The first call of a trace that returned an error. -/
def firstFailed (env : Env) (trace : List Site) : Option Site :=
  trace.find? (fun s => (env.outcome s).isSome)

/-- The calls executed before the first call at site `s`. -/
def before (s : Site) (trace : List Site) : List Site :=
  trace.takeWhile (fun x => x != s)

/-- The calls of a trace whose call site stands before `s` in the source, in the
order of the trace. -/
def earlier (s : Site) (trace : List Site) : List Site :=
  trace.filter (fun x => x.line < s.line)

/-! ## Concrete runs

Environments and requests used to evaluate `Generate` on explicit inputs. -/

/-- An environment whose calls return the errors given by `outcome`, where the
description directory exists iff `desc`, `filepath.Abs` resolves against `/work`
and `filepath.Join` joins with `/`. -/
def envWith (outcome : Site → Option GoError) (desc : Bool) : Env where
  outcome := outcome
  filepathAbs := fun p => "/work/" ++ p
  filepathJoin := fun parts => "/".intercalate parts
  pathExists := fun _ => desc
  serviceNameCamel := "Greeter"
  serviceNameLower := "greeter"
  GitIgnoreTmpl := "*.log\n"

/-- Every call succeeds. -/
def allSucceed : Site → Option GoError := fun _ => none

/-- Only the call at site `s` fails, with error `e`. -/
def onlyFails (s : Site) (e : GoError) : Site → Option GoError :=
  fun x => if x = s then some e else none

/-- A generator with the default naming format. -/
def gen0 : Generator := ⟨⟨"go_zero"⟩⟩

/-- The request of the end-to-end scenario: service `greeter`, module name
`greeter`, client generation on, every auxiliary flag off. -/
def reqGreeter : ZRpcContext where
  Src := "greeter.proto"
  ProtocCmd := ""
  ProtoGenGrpcDir := ""
  ProtoGenGoDir := ""
  IsGooglePlugin := false
  GoOutput := ""
  GrpcOutput := ""
  Output := "out"
  Multiple := false
  Schema := ""
  Ent := false
  ModuleName := "greeter"
  Port := 9110
  MakeFile := false
  DockerFile := false
  UseDescDir := false
  RpcName := "greeter"
  I18n := false
  IsGenClient := true
  IsNewProject := false

/-- The scenario request with the container-file flag set. -/
def reqDocker : ZRpcContext := { reqGreeter with DockerFile := true }

/-- The scenario request with the persistence flag set. -/
def reqEnt : ZRpcContext := { reqGreeter with Ent := true }

/-- The scenario request with the new-project flag set (persistence off). -/
def reqNewProject : ZRpcContext := { reqGreeter with IsNewProject := true }

/-! ## Execution of a list of call sites -/

theorem runSites_nil (env : Env) (st : State) : runSites env [] st = st := rfl

theorem runSites_cons (env : Env) (s : Site) (l : List Site) (st : State) :
    runSites env (s :: l) st = runSites env l (st.step env s) := rfl

theorem runSites_append (env : Env) (l₁ l₂ : List Site) (st : State) :
    runSites env (l₁ ++ l₂) st = runSites env l₂ (runSites env l₁ st) := by
  simp [runSites, List.foldl_append]

theorem runSites_ite (env : Env) (c : Bool) (l : List Site) (st : State) :
    runSites env (if c then l else []) st = st.when c (fun st => runSites env l st) := by
  cases c <;> rfl

/-- `Generate` is the execution of its pipeline followed by the closing `return err`. -/
theorem Generate_eq_runSites (env : Env) (g : Generator) (zctx : ZRpcContext) :
    Generate env g zctx = (runSites env (pipeline env zctx) State.init).returnErr := by
  simp only [Generate, pipeline, runSites_append, runSites_ite, runSites_cons, runSites_nil,
    State.step, Site.handling]

theorem returnErr_trace (st : State) : st.returnErr.trace = st.trace := by
  cases st <;> rfl

theorem step_returned (env : Env) (s : Site) (t : List Site) (r : Option GoError) :
    (State.returned t r).step env s = .returned t r := by
  unfold State.step
  cases s.handling <;> rfl

theorem runSites_returned (env : Env) (P : List Site) (t : List Site) (r : Option GoError) :
    runSites env P (.returned t r) = .returned t r := by
  induction P with
  | nil => rfl
  | cons s P ih => rw [runSites_cons, step_returned, ih]

/-- One step from a running state: either the run goes on with the site appended
to the trace, which is the case whenever the call succeeded or its error is not
tested, or the site is tested, its call failed, and the function returns. -/
theorem step_running (env : Env) (s : Site) (tr : List Site) (err el : Option GoError) :
    (∃ err' el', (State.running tr err el).step env s = .running (tr ++ [s]) err' el' ∧
        (s.handling ≠ .unchecked → env.outcome s = none) ∧
        (s.handling = .checked → err' = none)) ∨
    (∃ e, (State.running tr err el).step env s = .returned (tr ++ [s]) (some (s.surfaced env e)) ∧
        s.handling ≠ .unchecked ∧ env.outcome s = some e) := by
  unfold State.step Site.surfaced
  cases hh : s.handling <;> cases ho : env.outcome s <;>
    simp [State.call, State.callLocal, State.retIfErr, State.retIfErrLocal, State.retNewIfErr, ho]

/-- The two ways a run of a list of call sites ends: every site was executed and
every tested call succeeded, or the run stopped at the first tested call that
failed. -/
theorem runSites_running (env : Env) :
    ∀ (P tr : List Site) (err el : Option GoError),
      (∃ err' el', runSites env P (.running tr err el) = .running (tr ++ P) err' el' ∧
          ∀ s ∈ P, s.handling ≠ .unchecked → env.outcome s = none) ∨
      (∃ pre f post e, P = pre ++ f :: post ∧
          runSites env P (.running tr err el) = .returned (tr ++ pre ++ [f]) (some (f.surfaced env e)) ∧
          f.handling ≠ .unchecked ∧ env.outcome f = some e ∧
          ∀ x ∈ pre, x.handling ≠ .unchecked → env.outcome x = none) := by
  intro P
  induction P with
  | nil =>
    intro tr err el
    exact Or.inl ⟨err, el, by simp [runSites_nil], by simp⟩
  | cons s P ih =>
    intro tr err el
    rw [runSites_cons]
    rcases step_running env s tr err el with ⟨err', el', hstep, hs, -⟩ | ⟨e, hstep, hne, ho⟩
    · rw [hstep]
      rcases ih (tr ++ [s]) err' el' with ⟨err'', el'', hrun, hall⟩ | ⟨pre, f, post, e, hP, hrun, hf, hfo, hpre⟩
      · refine Or.inl ⟨err'', el'', by simpa using hrun, ?_⟩
        intro x hx
        rcases List.mem_cons.mp hx with rfl | hx
        · exact hs
        · exact hall x hx
      · refine Or.inr ⟨s :: pre, f, post, e, by simp [hP], by simpa using hrun, hf, hfo, ?_⟩
        intro x hx
        rcases List.mem_cons.mp hx with rfl | hx
        · exact hs
        · exact hpre x hx
    · rw [hstep, runSites_returned]
      exact Or.inr ⟨[], s, P, e, rfl, by simp, hne, ho, by simp⟩

/-- After a tested call at the end of the list, a run that is still going has
`err = nil`. -/
theorem runSites_snoc_checked (env : Env) (P : List Site) (l : Site) (st : State)
    (tr : List Site) (err el : Option GoError) (hl : l.handling = .checked)
    (h : runSites env (P ++ [l]) st = .running tr err el) : err = none := by
  rw [runSites_append, runSites_cons, runSites_nil] at h
  cases hst : runSites env P st with
  | returned t r => rw [hst, step_returned] at h; cases h
  | running t e₀ el₀ =>
    rw [hst] at h
    rcases step_running env l t e₀ el₀ with ⟨err', el', hstep, -, hnone⟩ | ⟨e, hstep, -, -⟩
    · rw [hstep] at h
      cases h
      exact hnone hl
    · rw [hstep] at h; cases h

theorem runSites_trace_extends (env : Env) (P : List Site) (st : State) :
    ∃ t, (runSites env P st).trace = st.trace ++ t := by
  cases st with
  | returned t r => exact ⟨[], by simp [runSites_returned]⟩
  | running tr err el =>
    rcases runSites_running env P tr err el with ⟨_, _, h, -⟩ | ⟨pre, f, _, _, _, h, -⟩
    · exact ⟨P, by rw [h]; rfl⟩
    · exact ⟨pre ++ [f], by rw [h]; simp [State.trace]⟩

/-! ## The pipeline -/

theorem mem_allSites (s : Site) : s ∈ allSites := by
  cases s <;> decide

theorem allSites_sorted : allSites.Pairwise (fun a b => a.line < b.line) := by
  decide

theorem filter_block (p : Site → Bool) (c : Bool) (l : List Site) (h : ∀ x ∈ l, p x = c) :
    l.filter p = if c then l else [] := by
  cases c with
  | true => simpa using h
  | false => simpa using h

/-- The pipeline consists of the call sites whose enclosing condition holds, in
source order. -/
theorem pipeline_eq_filter (env : Env) (zctx : ZRpcContext) :
    pipeline env zctx = allSites.filter (enabled env zctx) := by
  have hall : allSites =
      [.AbsOutput, .MkdirRoot] ++ [.AbsSrc, .MergeProto] ++ [.Prepare] ++ [.RunGoModInit]
        ++ [.ctxPrepare, .Parse, .mkdir, .GenEtc, .GenPb, .GenConfig, .GenSvc, .GenLogic,
            .GenServer, .GenMain]
        ++ [.GenCall] ++ [.RunMakefile] ++ [.RunDocker] ++ [.GenBaseDesc]
        ++ [.RunEntNew, .RunGoModTidy, .RunEntGenerate, .MkdirEntTemplate,
            .RunEntTemplatePagination, .RunEntTemplateSetNotNil, .RemoveSchema, .GenErrorHandler,
            .GenEntTx, .RunGoModTidyFinal]
        ++ [.RunProjectUpgrade, .GenEntInitCode] ++ [.WriteGitignore] := rfl
  rw [hall]
  simp only [List.filter_append]
  rw [filter_block (enabled env zctx) true [.AbsOutput, .MkdirRoot] (by simp [enabled]),
    filter_block (enabled env zctx) (env.pathExists (protoDir env zctx)) [.AbsSrc, .MergeProto]
      (by simp [enabled]),
    filter_block (enabled env zctx) true [.Prepare] (by simp [enabled]),
    filter_block (enabled env zctx) (zctx.ModuleName != "") [.RunGoModInit] (by simp [enabled]),
    filter_block (enabled env zctx) true
      [.ctxPrepare, .Parse, .mkdir, .GenEtc, .GenPb, .GenConfig, .GenSvc, .GenLogic, .GenServer,
        .GenMain] (by simp [enabled]),
    filter_block (enabled env zctx) zctx.IsGenClient [.GenCall] (by simp [enabled]),
    filter_block (enabled env zctx) zctx.MakeFile [.RunMakefile] (by simp [enabled]),
    filter_block (enabled env zctx) zctx.DockerFile [.RunDocker] (by simp [enabled]),
    filter_block (enabled env zctx) zctx.UseDescDir [.GenBaseDesc] (by simp [enabled]),
    filter_block (enabled env zctx) zctx.Ent
      [.RunEntNew, .RunGoModTidy, .RunEntGenerate, .MkdirEntTemplate, .RunEntTemplatePagination,
        .RunEntTemplateSetNotNil, .RemoveSchema, .GenErrorHandler, .GenEntTx, .RunGoModTidyFinal]
      (by simp [enabled]),
    filter_block (enabled env zctx) zctx.IsNewProject [.RunProjectUpgrade, .GenEntInitCode]
      (by simp [enabled]),
    filter_block (enabled env zctx) true [.WriteGitignore] (by simp [enabled])]
  rfl

theorem mem_pipeline (env : Env) (zctx : ZRpcContext) (s : Site) :
    s ∈ pipeline env zctx ↔ enabled env zctx s = true := by
  rw [pipeline_eq_filter, List.mem_filter]
  exact ⟨fun h => h.2, fun h => ⟨mem_allSites s, h⟩⟩

theorem pipeline_sorted (env : Env) (zctx : ZRpcContext) :
    (pipeline env zctx).Pairwise (fun a b => a.line < b.line) := by
  rw [pipeline_eq_filter]
  exact allSites_sorted.sublist (List.filter_sublist _)

theorem pipeline_getLast (env : Env) (zctx : ZRpcContext) :
    ∃ Q, pipeline env zctx = Q ++ [Site.WriteGitignore] := by
  unfold pipeline
  exact ⟨_, rfl⟩

/-! ## The two ways a run of `Generate` ends -/

/-- Either every call site of the pipeline was executed, every tested call
succeeded and `Generate` returns `nil`; or the run stopped at the first tested
call that failed, and `Generate` returns what the statement after that call
returns. -/
theorem Generate_cases (env : Env) (g : Generator) (zctx : ZRpcContext) :
    ((Generate env g zctx).trace = pipeline env zctx ∧ (Generate env g zctx).ret = none ∧
        ∀ s ∈ pipeline env zctx, s.handling ≠ .unchecked → env.outcome s = none) ∨
    (∃ pre f post e, pipeline env zctx = pre ++ f :: post ∧
        (Generate env g zctx).trace = pre ++ [f] ∧
        (Generate env g zctx).ret = some (f.surfaced env e) ∧
        f.handling ≠ .unchecked ∧ env.outcome f = some e ∧
        ∀ x ∈ pre, x.handling ≠ .unchecked → env.outcome x = none) := by
  rw [Generate_eq_runSites]
  rcases runSites_running env (pipeline env zctx) [] none none with
    ⟨err', el', hrun, hall⟩ | ⟨pre, f, post, e, hP, hrun, hf, hfo, hpre⟩
  · left
    obtain ⟨Q, hQ⟩ := pipeline_getLast env zctx
    have herr : err' = none := by
      have h := hrun
      rw [hQ] at h
      exact runSites_snoc_checked env Q Site.WriteGitignore _ _ _ _ rfl h
    subst herr
    rw [State.init, hrun]
    exact ⟨by simp [State.returnErr], rfl, hall⟩
  · right
    refine ⟨pre, f, post, e, hP, ?_, ?_, hf, hfo, hpre⟩
    · rw [State.init, hrun]; simp [State.returnErr]
    · rw [State.init, hrun]; rfl

/-- The trace of `Generate` is an initial segment of its pipeline. -/
theorem trace_isPrefix_pipeline (env : Env) (g : Generator) (zctx : ZRpcContext) :
    (Generate env g zctx).trace <+: pipeline env zctx := by
  rcases Generate_cases env g zctx with ⟨h, -⟩ | ⟨pre, f, post, e, hP, ht, -⟩
  · rw [h]
  · rw [ht, hP]
    exact ⟨post, by simp⟩

theorem trace_sorted (env : Env) (g : Generator) (zctx : ZRpcContext) :
    (Generate env g zctx).trace.Pairwise (fun a b => a.line < b.line) :=
  (pipeline_sorted env zctx).sublist (trace_isPrefix_pipeline env g zctx).sublist

theorem trace_nodup (env : Env) (g : Generator) (zctx : ZRpcContext) :
    (Generate env g zctx).trace.Nodup :=
  (trace_sorted env g zctx).imp (fun h => by intro heq; rw [heq] at h; exact lt_irrefl _ h)

theorem mem_trace_enabled (env : Env) (g : Generator) (zctx : ZRpcContext) (s : Site)
    (h : s ∈ (Generate env g zctx).trace) : enabled env zctx s = true :=
  (mem_pipeline env zctx s).mp ((trace_isPrefix_pipeline env g zctx).subset h)

/-- A tested call that is executed and fails ends the run: it is the last call of
the trace, every call before it stands earlier in the source, and `Generate`
returns what the statement after it returns. -/
theorem tested_failure_stops (env : Env) (g : Generator) (zctx : ZRpcContext) (s : Site)
    (e : GoError) (hmem : s ∈ (Generate env g zctx).trace) (hh : s.handling ≠ .unchecked)
    (ho : env.outcome s = some e) :
    ∃ pre, (Generate env g zctx).trace = pre ++ [s] ∧ s ∉ pre ∧
      (∀ x ∈ pre, x.handling ≠ .unchecked → env.outcome x = none) ∧
      (Generate env g zctx).ret = some (s.surfaced env e) := by
  have hnd := trace_nodup env g zctx
  rcases Generate_cases env g zctx with ⟨ht, -, hall⟩ | ⟨pre, f, post, e', hP, ht, hret, hf, hfo, hpre⟩
  · rw [ht] at hmem
    have := hall s hmem hh
    rw [ho] at this
    cases this
  · rw [ht] at hmem hnd
    rcases List.mem_append.mp hmem with hin | hin
    · have := hpre s hin hh
      rw [ho] at this
      cases this
    · have hsf : s = f := by simpa using hin
      subst hsf
      rw [ho] at hfo
      cases hfo
      refine ⟨pre, ht, ?_, hpre, hret⟩
      intro hin'
      have := List.nodup_append.mp hnd
      exact this.2.2 hin' (by simp)

/-- A call site is executed iff its enclosing condition holds and every tested
call of the pipeline that stands before it in the source succeeded. -/
theorem mem_trace_iff (env : Env) (g : Generator) (zctx : ZRpcContext) (s : Site) :
    s ∈ (Generate env g zctx).trace ↔
      enabled env zctx s = true ∧
        ∀ x, enabled env zctx x = true → x.line < s.line → x.handling ≠ .unchecked →
          env.outcome x = none := by
  have hsorted := pipeline_sorted env zctx
  constructor
  · intro hmem
    refine ⟨mem_trace_enabled env g zctx s hmem, ?_⟩
    intro x hx hlt hh
    have hxP := (mem_pipeline env zctx x).mpr hx
    rcases Generate_cases env g zctx with ⟨-, -, hall⟩ | ⟨pre, f, post, e, hP, ht, -, -, -, hpre⟩
    · exact hall x hxP hh
    · rw [hP] at hxP hsorted
      rw [ht] at hmem
      have hsle : s.line ≤ f.line := by
        rcases List.mem_append.mp hmem with hin | hin
        · have := (List.pairwise_append.mp hsorted).2.2 s hin f (by simp)
          exact le_of_lt this
        · have : s = f := by simpa using hin
          rw [this]
      rcases List.mem_append.mp hxP with hin | hin
      · exact hpre x hin hh
      · exfalso
        rcases List.mem_cons.mp hin with rfl | hin
        · omega
        · have := (List.pairwise_cons.mp (List.pairwise_append.mp hsorted).2.1).1 x hin
          omega
  · rintro ⟨hen, hbefore⟩
    have hsP := (mem_pipeline env zctx s).mpr hen
    rcases Generate_cases env g zctx with ⟨ht, -, -⟩ | ⟨pre, f, post, e, hP, ht, -, hf, hfo, -⟩
    · rw [ht]; exact hsP
    · rw [ht]
      rw [hP] at hsP hsorted
      rcases List.mem_append.mp hsP with hin | hin
      · exact List.mem_append.mpr (Or.inl hin)
      · rcases List.mem_cons.mp hin with rfl | hin
        · simp
        · exfalso
          have hlt := (List.pairwise_cons.mp (List.pairwise_append.mp hsorted).2.1).1 s hin
          have hfen : enabled env zctx f = true :=
            (mem_pipeline env zctx f).mp (by rw [hP]; simp)
          have := hbefore f hfen hlt hf
          rw [hfo] at this
          cases this

/-! ## Calls executed before a given call -/

theorem before_isInitial (s : Site) (t : List Site) : before s t <+: t :=
  List.takeWhile_prefix _

theorem before_append_cons (s : Site) (A rest : List Site) (hs : s ∉ A) :
    before s (A ++ s :: rest) = A := by
  induction A with
  | nil => simp [before]
  | cons a A ih =>
    have ha : a ≠ s := fun h => hs (by simp [h])
    have hA : s ∉ A := fun h => hs (by simp [h])
    have := ih hA
    simp only [before] at this ⊢
    simp [List.takeWhile_cons, ha, this]

/-- In a trace of `Generate`, the calls executed before the call at `s` are
calls that stand earlier in the source. -/
theorem before_lt (env : Env) (g : Generator) (zctx : ZRpcContext) (s : Site)
    (hs : s ∈ (Generate env g zctx).trace) :
    ∀ x ∈ before s (Generate env g zctx).trace, x.line < s.line := by
  obtain ⟨A, B, hT⟩ := List.append_of_mem hs
  have hnd := trace_nodup env g zctx
  have hso := trace_sorted env g zctx
  rw [hT] at hnd hso
  have hA : s ∉ A := fun h => (List.nodup_append.mp hnd).2.2 h (by simp)
  rw [hT, before_append_cons s A B hA]
  intro x hx
  exact (List.pairwise_append.mp hso).2.2 x hx s (by simp)

/-- Two lists of call sites that agree up to the site `s`, which only the first
one has, are executed alike up to `s`. -/
theorem runSites_toggle (env : Env) (A R₁ R₂ : List Site) (s : Site) (hs : s ∉ A) :
    before s (runSites env (A ++ s :: R₁) State.init).trace <+:
      (runSites env (A ++ R₂) State.init).trace := by
  rw [runSites_append, runSites_append]
  rcases runSites_running env A [] none none with ⟨err', el', hA, -⟩ | ⟨pre, f, post, e, -, hA, -⟩
  · rw [State.init, hA]
    simp only [List.nil_append]
    obtain ⟨t₂, h₂⟩ := runSites_trace_extends env R₂ (.running A err' el')
    rw [h₂, runSites_cons]
    have h₁ : ∃ t₁, (runSites env R₁ ((State.running A err' el').step env s)).trace
        = A ++ s :: t₁ := by
      rcases step_running env s A err' el' with ⟨a, b, hstep, -⟩ | ⟨e, hstep, -⟩
      · obtain ⟨t, ht⟩ := runSites_trace_extends env R₁ (.running (A ++ [s]) a b)
        exact ⟨t, by rw [hstep, ht]; simp [State.trace]⟩
      · exact ⟨[], by rw [hstep, runSites_returned]; simp [State.trace]⟩
    obtain ⟨t₁, h₁⟩ := h₁
    rw [h₁, before_append_cons s A t₁ hs]
    exact ⟨t₂, rfl⟩
  · rw [State.init, hA, runSites_returned, runSites_returned]
    exact before_isInitial _ _

/-- Switching the condition of one call site on, the conditions of the call sites
before it being equal, leaves the calls executed before that site as they are. -/
theorem Generate_toggle (env : Env) (g : Generator) (z z' : ZRpcContext) (s : Site)
    (hen : enabled env z s = true)
    (hag : ∀ x, x.line < s.line → enabled env z x = enabled env z' x) :
    before s (Generate env g z).trace <+: (Generate env g z').trace := by
  obtain ⟨L, R, hLR⟩ := List.append_of_mem (mem_allSites s)
  have hso := allSites_sorted
  rw [hLR] at hso
  have hlt : ∀ x ∈ L, x.line < s.line := fun x hx =>
    (List.pairwise_append.mp hso).2.2 x hx s (by simp)
  have hL : s ∉ L := fun h => lt_irrefl _ (hlt s h)
  have hLeq : L.filter (enabled env z) = L.filter (enabled env z') := by
    apply List.filter_congr
    intro x hx
    exact hag x (hlt x hx)
  have hz : pipeline env z = L.filter (enabled env z') ++ s :: R.filter (enabled env z) := by
    rw [pipeline_eq_filter, hLR, List.filter_append, List.filter_cons, hen, hLeq]
    rfl
  have hz' : pipeline env z' =
      L.filter (enabled env z') ++ (s :: R).filter (enabled env z') := by
    rw [pipeline_eq_filter, hLR, List.filter_append]
  rw [Generate_eq_runSites, Generate_eq_runSites, returnErr_trace, returnErr_trace, hz, hz']
  apply runSites_toggle
  intro h
  exact hL (List.mem_filter.mp h).1

/-! ## Fail-fast at the mandatory stages -/

theorem mem_of_firstFailed (env : Env) (t : List Site) (s : Site)
    (h : firstFailed env t = some s) : s ∈ t :=
  List.mem_of_find?_eq_some h

theorem mandatory_handling (s : Site) (h : s.mandatory = true) :
    s.handling = .checked ∨ s.handling = .checkedLocal := by
  cases s <;> simp [Site.mandatory] at h <;> simp [Site.handling]

theorem surfaced_of_tested (env : Env) (s : Site) (e : GoError)
    (h : s.handling = .checked ∨ s.handling = .checkedLocal) : s.surfaced env e = e := by
  unfold Site.surfaced
  rcases h with h | h <;> rw [h]

theorem tested_ne_unchecked (s : Site)
    (h : s.handling = .checked ∨ s.handling = .checkedLocal) : s.handling ≠ .unchecked := by
  rcases h with h | h <;> rw [h] <;> simp

/-- A call whose error is tested and returned as it is ends the run when it fails:
`Generate` returns its error, the call is the last of the trace and no call that
stands later in the source is executed. -/
theorem verbatim_failure (env : Env) (g : Generator) (zctx : ZRpcContext) (s : Site)
    (e : GoError) (hmem : s ∈ (Generate env g zctx).trace)
    (hh : s.handling = .checked ∨ s.handling = .checkedLocal)
    (ho : env.outcome s = some e) :
    (Generate env g zctx).ret = some e ∧
      (∃ pre, (Generate env g zctx).trace = pre ++ [s] ∧ s ∉ pre) ∧
      ∀ x, s.line < x.line → x ∉ (Generate env g zctx).trace := by
  obtain ⟨pre, ht, hpre, -, hret⟩ :=
    tested_failure_stops env g zctx s e hmem (tested_ne_unchecked s hh) ho
  rw [surfaced_of_tested env s e hh] at hret
  refine ⟨hret, ⟨pre, ht, hpre⟩, ?_⟩
  intro x hlt hx
  have hso := trace_sorted env g zctx
  rw [ht] at hso hx
  rcases List.mem_append.mp hx with hin | hin
  · have := (List.pairwise_append.mp hso).2.2 x hin s (by simp)
    omega
  · have : x = s := by simpa using hin
    rw [this] at hlt
    exact lt_irrefl _ hlt

/-- C1. Fail-fast at a mandatory stage: when the first call of a run that fails is
one of the mandatory stages (output root, proto merge, `g.Prepare`, `go mod init`,
`ctx.Prepare`, `Parse`, `mkdir`, `GenEtc` ... `GenMain`) and it failed with `e`,
then `Generate` returns `e`, that call is the last call executed, and no call
site that stands after it in the source is executed. -/
theorem Generate_mandatory_failfast (env : Env) (g : Generator) (zctx : ZRpcContext) (s : Site)
    (e : GoError) (hmand : s.mandatory = true)
    (hfirst : firstFailed env (Generate env g zctx).trace = some s)
    (he : env.outcome s = some e) :
    (Generate env g zctx).ret = some e ∧
      (∃ pre, (Generate env g zctx).trace = pre ++ [s] ∧ s ∉ pre) ∧
      ∀ x, s.line < x.line → x ∉ (Generate env g zctx).trace :=
  verbatim_failure env g zctx s e (mem_of_firstFailed env _ s hfirst) (mandatory_handling s hmand) he

/-- C1 at a concrete input: `GenServer` fails with `val 1` in the scenario run. -/
theorem Generate_mandatory_failfast_witness :
    Site.mandatory .GenServer = true ∧
      firstFailed (envWith (onlyFails .GenServer (.val 1)) false)
        (Generate (envWith (onlyFails .GenServer (.val 1)) false) gen0 reqGreeter).trace
          = some .GenServer ∧
      (Generate (envWith (onlyFails .GenServer (.val 1)) false) gen0 reqGreeter).ret
          = some (.val 1) ∧
      (∃ pre, (Generate (envWith (onlyFails .GenServer (.val 1)) false) gen0 reqGreeter).trace
          = pre ++ [.GenServer] ∧ Site.GenServer ∉ pre) ∧
      ∀ x, Site.GenServer.line < x.line →
        x ∉ (Generate (envWith (onlyFails .GenServer (.val 1)) false) gen0 reqGreeter).trace :=
  ⟨by decide, by decide,
    Generate_mandatory_failfast (envWith (onlyFails .GenServer (.val 1)) false) gen0 reqGreeter
      .GenServer (.val 1) (by decide) (by decide) (by decide)⟩

/-! ## The unchecked client-stub call -/

/-- C2 (evaluation at the failing input). With client generation on and every
auxiliary flag off, a failing `GenCall` is followed by the `.gitignore` write and
`Generate` returns `nil`. -/
theorem Generate_GenCall_error_lost :
    (envWith (onlyFails .GenCall (.val 1)) false).outcome .GenCall = some (.val 1) ∧
      reqGreeter.IsGenClient = true ∧
      (Generate (envWith (onlyFails .GenCall (.val 1)) false) gen0 reqGreeter).trace =
        [.AbsOutput, .MkdirRoot, .Prepare, .RunGoModInit, .ctxPrepare, .Parse, .mkdir, .GenEtc,
          .GenPb, .GenConfig, .GenSvc, .GenLogic, .GenServer, .GenMain, .GenCall,
          .WriteGitignore] ∧
      (Generate (envWith (onlyFails .GenCall (.val 1)) false) gen0 reqGreeter).ret = none := by
  decide

/-! ## The unchecked container-file command -/

/-- C3 (evaluation at the failing input). With only the container-file flag set,
a failing `goctls docker` command is followed by the `.gitignore` write and
`Generate` returns `nil`. -/
theorem Generate_docker_error_lost :
    (envWith (onlyFails .RunDocker (.val 1)) false).outcome .RunDocker = some (.val 1) ∧
      reqDocker.DockerFile = true ∧
      (Generate (envWith (onlyFails .RunDocker (.val 1)) false) gen0 reqDocker).trace =
        [.AbsOutput, .MkdirRoot, .Prepare, .RunGoModInit, .ctxPrepare, .Parse, .mkdir, .GenEtc,
          .GenPb, .GenConfig, .GenSvc, .GenLogic, .GenServer, .GenMain, .GenCall, .RunDocker,
          .WriteGitignore] ∧
      (Generate (envWith (onlyFails .RunDocker (.val 1)) false) gen0 reqDocker).ret = none := by
  decide

/-! ## The cause of a returned error -/

theorem le_foldr_max (l : List Nat) (x : Nat) (h : x ∈ l) : x ≤ l.foldr max 0 := by
  induction l with
  | nil => cases h
  | cons a l ih =>
    rcases List.mem_cons.mp h with rfl | h
    · exact le_max_left _ _
    · exact le_trans (ih h) (le_max_right _ _)

/-- The address that `errors.New` allocates is above every address held by an
error that a collaborator returns in the run. -/
theorem maxAddr_lt_freshAddr (env : Env) (s : Site) (e : GoError)
    (h : env.outcome s = some e) : e.maxAddr < freshAddr env := by
  unfold freshAddr
  apply Nat.lt_succ_of_le
  apply le_foldr_max
  refine List.mem_map.mpr ⟨s, mem_allSites s, ?_⟩
  rw [h]

/-- The value that `errors.New` builds is not an error returned by a collaborator
and wraps nothing: `errors.Is` does not find a collaborator's error in it. -/
theorem errorsIs_errorsNew (env : Env) (s : Site) (e : GoError) (msg : String)
    (h : env.outcome s = some e) : errorsIs (errorsNew env msg) e = false := by
  have hlt := maxAddr_lt_freshAddr env s e h
  unfold errorsNew errorsIs
  rw [beq_eq_false_iff_ne]
  intro heq
  rw [← heq] at hlt
  exact lt_irrefl _ hlt

/-- C4 (counterexample). In a new-project run in which `GenEntInitCode` fails with
`val 1`, that call is the last one executed and `Generate` returns the value of
`errors.New("failed to generate ent init code")`, in which `errors.Is` does not
find `val 1`: it is not `val 1` and does not wrap it. -/
theorem Generate_entInit_cause_dropped :
    (Generate (envWith (onlyFails .GenEntInitCode (.val 1)) false) gen0 reqNewProject).trace.getLast?
        = some .GenEntInitCode ∧
      (envWith (onlyFails .GenEntInitCode (.val 1)) false).outcome .GenEntInitCode
        = some (.val 1) ∧
      (Generate (envWith (onlyFails .GenEntInitCode (.val 1)) false) gen0 reqNewProject).ret
        = some (errorsNew (envWith (onlyFails .GenEntInitCode (.val 1)) false)
            "failed to generate ent init code") ∧
      errorsIs (errorsNew (envWith (onlyFails .GenEntInitCode (.val 1)) false)
          "failed to generate ent init code") (.val 1) = false := by
  decide

/-- C4 (amended). When the run ends at a call that failed with `e`, `Generate`
returns `e` itself for every call site other than `GenEntInitCode`; when
`GenEntInitCode` fails, `Generate` returns the value of
`errors.New("failed to generate ent init code")` whatever `e` is, and `e` is not
recoverable from it: `errors.Is` does not find `e` in the returned error. -/
theorem Generate_cause_preserved (env : Env) (g : Generator) (zctx : ZRpcContext) (s : Site)
    (e : GoError) (hlast : (Generate env g zctx).trace.getLast? = some s)
    (he : env.outcome s = some e) :
    (s ≠ .GenEntInitCode → (Generate env g zctx).ret = some e) ∧
      (s = .GenEntInitCode →
        (Generate env g zctx).ret = some (errorsNew env "failed to generate ent init code") ∧
          errorsIs (errorsNew env "failed to generate ent init code") e = false) := by
  have hret : (Generate env g zctx).ret = some (s.surfaced env e) := by
    rcases Generate_cases env g zctx with ⟨ht, -, hall⟩ | ⟨pre, f, post, e', -, ht, hret, -, hfo, -⟩
    · exfalso
      obtain ⟨Q, hQ⟩ := pipeline_getLast env zctx
      rw [ht, hQ] at hlast
      have hs : s = .WriteGitignore := by simpa using hlast.symm
      have := hall .WriteGitignore (by rw [hQ]; simp) (by simp [Site.handling])
      rw [hs, this] at he
      cases he
    · rw [ht] at hlast
      have hs : f = s := by simpa using hlast
      subst hs
      rw [he] at hfo
      cases hfo
      exact hret
  constructor
  · intro hne
    rw [hret]
    cases s <;> first | rfl | exact absurd rfl hne
  · intro heq
    refine ⟨by rw [hret, heq]; rfl, ?_⟩
    exact errorsIs_errorsNew env s e _ he

/-- C4 (amended) at a concrete input: in a new-project run `GenEntInitCode`
fails with an `errors.New` value of its own that carries the very text
`failed to generate ent init code`, at address 7. -/
theorem Generate_cause_preserved_witness :
    (Generate (envWith (onlyFails .GenEntInitCode (.errorString 7 "failed to generate ent init code")) false) gen0
        reqNewProject).trace.getLast? = some .GenEntInitCode ∧
      (Site.GenEntInitCode ≠ .GenEntInitCode →
        (Generate (envWith (onlyFails .GenEntInitCode (.errorString 7 "failed to generate ent init code")) false) gen0
          reqNewProject).ret = some (.errorString 7 "failed to generate ent init code")) ∧
      (Site.GenEntInitCode = .GenEntInitCode →
        (Generate (envWith (onlyFails .GenEntInitCode (.errorString 7 "failed to generate ent init code")) false) gen0
            reqNewProject).ret
            = some (errorsNew (envWith (onlyFails .GenEntInitCode (.errorString 7 "failed to generate ent init code")) false)
                "failed to generate ent init code") ∧
          errorsIs (errorsNew (envWith (onlyFails .GenEntInitCode (.errorString 7 "failed to generate ent init code")) false)
            "failed to generate ent init code") (.errorString 7 "failed to generate ent init code") = false) :=
  ⟨by decide,
    Generate_cause_preserved (envWith (onlyFails .GenEntInitCode (.errorString 7 "failed to generate ent init code")) false)
      gen0 reqNewProject .GenEntInitCode (.errorString 7 "failed to generate ent init code") (by decide) (by decide)⟩

/-! ## What the returned error says about the failing stage -/

/-- C5 (counterexample). `GenServer` failing with `val 1` in one run and `GenMain`
failing with `val 1` in another run of the same request are two different first
failures, and `Generate` returns the same error in both runs. -/
theorem Generate_same_error_two_stages :
    firstFailed (envWith (onlyFails .GenServer (.val 1)) false)
        (Generate (envWith (onlyFails .GenServer (.val 1)) false) gen0 reqGreeter).trace
          = some .GenServer ∧
      firstFailed (envWith (onlyFails .GenMain (.val 1)) false)
        (Generate (envWith (onlyFails .GenMain (.val 1)) false) gen0 reqGreeter).trace
          = some .GenMain ∧
      Site.GenServer ≠ Site.GenMain ∧
      (Generate (envWith (onlyFails .GenServer (.val 1)) false) gen0 reqGreeter).ret =
        (Generate (envWith (onlyFails .GenMain (.val 1)) false) gen0 reqGreeter).ret := by
  decide

/-- C5 (amended). The returned error is the failing call's own error, with nothing
added: in two runs whose first failing calls are two different call sites whose
error is tested and returned as it is (every site but `GenCall`, the docker
command and `GenEntInitCode`), `Generate` returns the two underlying errors, so
the returned errors are equal exactly when the underlying errors are equal. -/
theorem Generate_error_is_stage_error (env₁ env₂ : Env) (g₁ g₂ : Generator)
    (z₁ z₂ : ZRpcContext) (s₁ s₂ : Site) (e₁ e₂ : GoError) (_hne : s₁ ≠ s₂)
    (h₁ : firstFailed env₁ (Generate env₁ g₁ z₁).trace = some s₁)
    (hk₁ : s₁.handling = .checked ∨ s₁.handling = .checkedLocal)
    (ho₁ : env₁.outcome s₁ = some e₁)
    (h₂ : firstFailed env₂ (Generate env₂ g₂ z₂).trace = some s₂)
    (hk₂ : s₂.handling = .checked ∨ s₂.handling = .checkedLocal)
    (ho₂ : env₂.outcome s₂ = some e₂) :
    (Generate env₁ g₁ z₁).ret = some e₁ ∧ (Generate env₂ g₂ z₂).ret = some e₂ ∧
      ((Generate env₁ g₁ z₁).ret = (Generate env₂ g₂ z₂).ret ↔ e₁ = e₂) := by
  have r₁ := (verbatim_failure env₁ g₁ z₁ s₁ e₁ (mem_of_firstFailed env₁ _ s₁ h₁) hk₁ ho₁).1
  have r₂ := (verbatim_failure env₂ g₂ z₂ s₂ e₂ (mem_of_firstFailed env₂ _ s₂ h₂) hk₂ ho₂).1
  refine ⟨r₁, r₂, ?_⟩
  rw [r₁, r₂]
  exact ⟨fun h => Option.some.inj h, fun h => by rw [h]⟩

/-- C5 (amended) at a concrete input: `GenServer` fails with `val 1` in one run,
the `.gitignore` write fails with `val 2` in the other. -/
theorem Generate_error_is_stage_error_witness :
    (Generate (envWith (onlyFails .GenServer (.val 1)) false) gen0 reqGreeter).ret
        = some (.val 1) ∧
      (Generate (envWith (onlyFails .WriteGitignore (.val 2)) false) gen0 reqGreeter).ret
        = some (.val 2) ∧
      ((Generate (envWith (onlyFails .GenServer (.val 1)) false) gen0 reqGreeter).ret =
          (Generate (envWith (onlyFails .WriteGitignore (.val 2)) false) gen0 reqGreeter).ret ↔
        GoError.val 1 = GoError.val 2) :=
  Generate_error_is_stage_error (envWith (onlyFails .GenServer (.val 1)) false)
    (envWith (onlyFails .WriteGitignore (.val 2)) false) gen0 gen0 reqGreeter reqGreeter
    .GenServer .WriteGitignore (.val 1) (.val 2) (by decide) (by decide) (by decide) (by decide)
    (by decide) (by decide) (by decide)

/-! ## The persistence-layer steps -/

/-- C6 (evaluation at the failing input). With client generation and persistence
on, a failing `GenCall` is followed by every persistence-layer step: `ent new` is
executed although `GenCall` has returned an error. -/
theorem Generate_ent_after_failed_GenCall :
    reqEnt.IsGenClient = true ∧ reqEnt.Ent = true ∧
      (envWith (onlyFails .GenCall (.val 1)) false).outcome .GenCall = some (.val 1) ∧
      Site.GenCall ∈ before .RunEntNew
        (Generate (envWith (onlyFails .GenCall (.val 1)) false) gen0 reqEnt).trace ∧
      (Generate (envWith (onlyFails .GenCall (.val 1)) false) gen0 reqEnt).trace =
        [.AbsOutput, .MkdirRoot, .Prepare, .RunGoModInit, .ctxPrepare, .Parse, .mkdir, .GenEtc,
          .GenPb, .GenConfig, .GenSvc, .GenLogic, .GenServer, .GenMain, .GenCall, .RunEntNew,
          .RunGoModTidy, .RunEntGenerate, .MkdirEntTemplate, .RunEntTemplatePagination,
          .RunEntTemplateSetNotNil, .RemoveSchema, .GenErrorHandler, .GenEntTx,
          .RunGoModTidyFinal, .WriteGitignore] ∧
      (Generate (envWith (onlyFails .GenCall (.val 1)) false) gen0 reqEnt).ret = none := by
  decide

/-- C7 (counterexample). With persistence off and the new-project flag on, a run
in which every call succeeds executes `GenEntInitCode`. -/
theorem Generate_entInit_without_ent :
    reqNewProject.Ent = false ∧
      Site.GenEntInitCode ∈ (Generate (envWith allSucceed false) gen0 reqNewProject).trace := by
  decide

/-- C7 (amended). With `Ent = false` no call site of the persistence block
(`ent new`, `go mod tidy`, `ent generate`, creation of `ent/template`, the two
`goctls extra ent template` commands, removal of the schema file,
`GenErrorHandler`, `GenEntTx`) is executed, and the makefile command is the base
command followed by ` -i` under `I18n` and by nothing else; `GenEntInitCode` is
executed only if `IsNewProject` is set, whatever `Ent` is. -/
theorem Generate_ent_disabled (env : Env) (g : Generator) (zctx : ZRpcContext)
    (hEnt : zctx.Ent = false) :
    (∀ s ∈ (Generate env g zctx).trace, s.isEnt = false) ∧
      callAt env g zctx .RunMakefile =
        .execxRun ("goctls extra makefile -t " ++ "rpc" ++ " -s " ++ g.cfg.NamingFormat
          ++ " -n " ++ zctx.RpcName ++ (if zctx.I18n then " -i" else "")) (absOf env zctx) ∧
      (Site.GenEntInitCode ∈ (Generate env g zctx).trace → zctx.IsNewProject = true) := by
  refine ⟨?_, ?_, ?_⟩
  · intro s hs
    have hen := mem_trace_enabled env g zctx s hs
    cases s <;> simp [enabled, hEnt] at hen <;> rfl
  · simp only [callAt, makefileCmd, hEnt]
    cases zctx.I18n <;> simp
  · intro h
    simpa [enabled] using mem_trace_enabled env g zctx _ h

/-- C7 (amended) at a concrete input: the new-project request, persistence off. -/
theorem Generate_ent_disabled_witness :
    reqNewProject.Ent = false ∧
      (∀ s ∈ (Generate (envWith allSucceed false) gen0 reqNewProject).trace, s.isEnt = false) ∧
      callAt (envWith allSucceed false) gen0 reqNewProject .RunMakefile =
        .execxRun ("goctls extra makefile -t " ++ "rpc" ++ " -s " ++ gen0.cfg.NamingFormat
          ++ " -n " ++ reqNewProject.RpcName ++ (if reqNewProject.I18n then " -i" else ""))
          (absOf (envWith allSucceed false) reqNewProject) ∧
      (Site.GenEntInitCode ∈ (Generate (envWith allSucceed false) gen0 reqNewProject).trace →
        reqNewProject.IsNewProject = true) :=
  ⟨rfl, Generate_ent_disabled (envWith allSucceed false) gen0 reqNewProject rfl⟩

/-! ## The optional stages -/

theorem mem_earlier (s x : Site) (t : List Site) :
    x ∈ earlier s t ↔ x ∈ t ∧ x.line < s.line := by
  simp [earlier]

/-- Two requests whose conditions agree on the call sites before `s` execute the
same calls before `s`, in the same order. -/
theorem Generate_earlier_eq (env : Env) (g : Generator) (z z' : ZRpcContext) (s : Site)
    (hag : ∀ x, x.line < s.line → enabled env z x = enabled env z' x) :
    earlier s (Generate env g z).trace = earlier s (Generate env g z').trace := by
  haveI : IsAntisymm Site (fun a b => a.line < b.line) :=
    ⟨fun a b h₁ h₂ => absurd h₁ (Nat.lt_asymm h₂)⟩
  have hmem : ∀ x, x ∈ earlier s (Generate env g z).trace ↔
      x ∈ earlier s (Generate env g z').trace := by
    intro x
    rw [mem_earlier, mem_earlier, mem_trace_iff, mem_trace_iff]
    constructor
    · rintro ⟨⟨hen, hall⟩, hlt⟩
      refine ⟨⟨by rw [← hag x hlt]; exact hen, ?_⟩, hlt⟩
      intro y hy hyx hh
      exact hall y (by rw [hag y (lt_trans hyx hlt)]; exact hy) hyx hh
    · rintro ⟨⟨hen, hall⟩, hlt⟩
      refine ⟨⟨by rw [hag x hlt]; exact hen, ?_⟩, hlt⟩
      intro y hy hyx hh
      exact hall y (by rw [← hag y (lt_trans hyx hlt)]; exact hy) hyx hh
  have hs₁ : (earlier s (Generate env g z).trace).Pairwise (fun a b => a.line < b.line) :=
    (trace_sorted env g z).sublist (List.filter_sublist _)
  have hs₂ : (earlier s (Generate env g z').trace).Pairwise (fun a b => a.line < b.line) :=
    (trace_sorted env g z').sublist (List.filter_sublist _)
  have hn₁ : (earlier s (Generate env g z).trace).Nodup :=
    (trace_nodup env g z).sublist (List.filter_sublist _)
  have hn₂ : (earlier s (Generate env g z').trace).Nodup :=
    (trace_nodup env g z').sublist (List.filter_sublist _)
  exact List.eq_of_perm_of_sorted ((List.perm_ext_iff_of_nodup hn₁ hn₂).mpr hmem) hs₁ hs₂

/-- C8. Optional stages are gates: `GenCall`, the makefile command, the docker
command, `GenBaseDesc`, `goctls project upgrade` and `go mod init` are executed
only if their flag is set (a non-empty module name for `go mod init`); every call
site is executed at most once; and setting or clearing one of these flags,
everything else equal, does not change the earlier stages: the calls that stand
before the flag's stage in the source are executed in the run with the flag set
exactly when they are in the run with the flag cleared, in the same order (the
two lists of earlier calls are equal), and the calls executed before the stage in
the flag-on run are an initial segment of the flag-off run. -/
theorem Generate_optional_gates (env : Env) (g : Generator) (zctx : ZRpcContext) :
    (Site.GenCall ∈ (Generate env g zctx).trace → zctx.IsGenClient = true) ∧
    (Site.RunMakefile ∈ (Generate env g zctx).trace → zctx.MakeFile = true) ∧
    (Site.RunDocker ∈ (Generate env g zctx).trace → zctx.DockerFile = true) ∧
    (Site.GenBaseDesc ∈ (Generate env g zctx).trace → zctx.UseDescDir = true) ∧
    (Site.RunProjectUpgrade ∈ (Generate env g zctx).trace → zctx.IsNewProject = true) ∧
    (Site.RunGoModInit ∈ (Generate env g zctx).trace → zctx.ModuleName ≠ "") ∧
    (∀ s, (Generate env g zctx).trace.count s ≤ 1) ∧
    (before .GenCall (Generate env g { zctx with IsGenClient := true }).trace <+:
      (Generate env g { zctx with IsGenClient := false }).trace) ∧
    (before .RunMakefile (Generate env g { zctx with MakeFile := true }).trace <+:
      (Generate env g { zctx with MakeFile := false }).trace) ∧
    (before .RunDocker (Generate env g { zctx with DockerFile := true }).trace <+:
      (Generate env g { zctx with DockerFile := false }).trace) ∧
    (before .GenBaseDesc (Generate env g { zctx with UseDescDir := true }).trace <+:
      (Generate env g { zctx with UseDescDir := false }).trace) ∧
    (before .RunProjectUpgrade (Generate env g { zctx with IsNewProject := true }).trace <+:
      (Generate env g { zctx with IsNewProject := false }).trace) ∧
    (∀ m : String, before .RunGoModInit (Generate env g { zctx with ModuleName := m }).trace <+:
      (Generate env g { zctx with ModuleName := "" }).trace) ∧
    (∀ b : Bool, earlier .GenCall (Generate env g { zctx with IsGenClient := b }).trace =
      earlier .GenCall (Generate env g zctx).trace) ∧
    (∀ b : Bool, earlier .RunMakefile (Generate env g { zctx with MakeFile := b }).trace =
      earlier .RunMakefile (Generate env g zctx).trace) ∧
    (∀ b : Bool, earlier .RunDocker (Generate env g { zctx with DockerFile := b }).trace =
      earlier .RunDocker (Generate env g zctx).trace) ∧
    (∀ b : Bool, earlier .GenBaseDesc (Generate env g { zctx with UseDescDir := b }).trace =
      earlier .GenBaseDesc (Generate env g zctx).trace) ∧
    (∀ b : Bool, earlier .RunProjectUpgrade (Generate env g { zctx with IsNewProject := b }).trace =
      earlier .RunProjectUpgrade (Generate env g zctx).trace) ∧
    (∀ m : String, earlier .RunGoModInit (Generate env g { zctx with ModuleName := m }).trace =
      earlier .RunGoModInit (Generate env g zctx).trace) ∧
    (∀ (b : Bool) (x : Site), x.line < Site.GenCall.line →
      (x ∈ (Generate env g { zctx with IsGenClient := b }).trace ↔
        x ∈ (Generate env g zctx).trace)) ∧
    (∀ (b : Bool) (x : Site), x.line < Site.RunMakefile.line →
      (x ∈ (Generate env g { zctx with MakeFile := b }).trace ↔
        x ∈ (Generate env g zctx).trace)) ∧
    (∀ (b : Bool) (x : Site), x.line < Site.RunDocker.line →
      (x ∈ (Generate env g { zctx with DockerFile := b }).trace ↔
        x ∈ (Generate env g zctx).trace)) ∧
    (∀ (b : Bool) (x : Site), x.line < Site.GenBaseDesc.line →
      (x ∈ (Generate env g { zctx with UseDescDir := b }).trace ↔
        x ∈ (Generate env g zctx).trace)) ∧
    (∀ (b : Bool) (x : Site), x.line < Site.RunProjectUpgrade.line →
      (x ∈ (Generate env g { zctx with IsNewProject := b }).trace ↔
        x ∈ (Generate env g zctx).trace)) ∧
    (∀ (m : String) (x : Site), x.line < Site.RunGoModInit.line →
      (x ∈ (Generate env g { zctx with ModuleName := m }).trace ↔
        x ∈ (Generate env g zctx).trace)) := by
  have hiff : ∀ (z' : ZRpcContext) (s x : Site),
      earlier s (Generate env g z').trace = earlier s (Generate env g zctx).trace →
      x.line < s.line →
      (x ∈ (Generate env g z').trace ↔ x ∈ (Generate env g zctx).trace) := by
    intro z' s x heq hlt
    have h₁ := mem_earlier s x (Generate env g z').trace
    have h₂ := mem_earlier s x (Generate env g zctx).trace
    rw [heq] at h₁
    constructor
    · intro hx
      exact (h₂.mp (h₁.mpr ⟨hx, hlt⟩)).1
    · intro hx
      exact (h₁.mp (h₂.mpr ⟨hx, hlt⟩)).1
  have e₁ : ∀ b : Bool, earlier .GenCall (Generate env g { zctx with IsGenClient := b }).trace =
      earlier .GenCall (Generate env g zctx).trace := by
    intro b
    apply Generate_earlier_eq
    intro x hx
    cases x <;> first | rfl | (exfalso; revert hx; decide)
  have e₂ : ∀ b : Bool, earlier .RunMakefile (Generate env g { zctx with MakeFile := b }).trace =
      earlier .RunMakefile (Generate env g zctx).trace := by
    intro b
    apply Generate_earlier_eq
    intro x hx
    cases x <;> first | rfl | (exfalso; revert hx; decide)
  have e₃ : ∀ b : Bool, earlier .RunDocker (Generate env g { zctx with DockerFile := b }).trace =
      earlier .RunDocker (Generate env g zctx).trace := by
    intro b
    apply Generate_earlier_eq
    intro x hx
    cases x <;> first | rfl | (exfalso; revert hx; decide)
  have e₄ : ∀ b : Bool, earlier .GenBaseDesc (Generate env g { zctx with UseDescDir := b }).trace =
      earlier .GenBaseDesc (Generate env g zctx).trace := by
    intro b
    apply Generate_earlier_eq
    intro x hx
    cases x <;> first | rfl | (exfalso; revert hx; decide)
  have e₅ : ∀ b : Bool,
      earlier .RunProjectUpgrade (Generate env g { zctx with IsNewProject := b }).trace =
        earlier .RunProjectUpgrade (Generate env g zctx).trace := by
    intro b
    apply Generate_earlier_eq
    intro x hx
    cases x <;> first | rfl | (exfalso; revert hx; decide)
  have e₆ : ∀ m : String,
      earlier .RunGoModInit (Generate env g { zctx with ModuleName := m }).trace =
        earlier .RunGoModInit (Generate env g zctx).trace := by
    intro m
    apply Generate_earlier_eq
    intro x hx
    cases x <;> first | rfl | (exfalso; revert hx; decide)
  refine ⟨?_, ?_, ?_, ?_, ?_, ?_, ?_, ?_, ?_, ?_, ?_, ?_, ?_, e₁, e₂, e₃, e₄, e₅, e₆,
    fun b x hx => hiff _ _ x (e₁ b) hx, fun b x hx => hiff _ _ x (e₂ b) hx,
    fun b x hx => hiff _ _ x (e₃ b) hx, fun b x hx => hiff _ _ x (e₄ b) hx,
    fun b x hx => hiff _ _ x (e₅ b) hx, fun m x hx => hiff _ _ x (e₆ m) hx⟩
  · intro h; simpa [enabled] using mem_trace_enabled env g zctx _ h
  · intro h; simpa [enabled] using mem_trace_enabled env g zctx _ h
  · intro h; simpa [enabled] using mem_trace_enabled env g zctx _ h
  · intro h; simpa [enabled] using mem_trace_enabled env g zctx _ h
  · intro h; simpa [enabled] using mem_trace_enabled env g zctx _ h
  · intro h; simpa [enabled] using mem_trace_enabled env g zctx _ h
  · exact List.nodup_iff_count_le_one.mp (trace_nodup env g zctx)
  · apply Generate_toggle
    · rfl
    · intro x hx
      cases x <;> first | rfl | (exfalso; revert hx; decide)
  · apply Generate_toggle
    · rfl
    · intro x hx
      cases x <;> first | rfl | (exfalso; revert hx; decide)
  · apply Generate_toggle
    · rfl
    · intro x hx
      cases x <;> first | rfl | (exfalso; revert hx; decide)
  · apply Generate_toggle
    · rfl
    · intro x hx
      cases x <;> first | rfl | (exfalso; revert hx; decide)
  · apply Generate_toggle
    · rfl
    · intro x hx
      cases x <;> first | rfl | (exfalso; revert hx; decide)
  · intro m
    by_cases hm : m = ""
    · subst hm
      exact before_isInitial _ _
    · apply Generate_toggle
      · simpa [enabled] using hm
      · intro x hx
        cases x <;> first | rfl | (exfalso; revert hx; decide)

/-! ## The proto merge -/

/-- C9 (counterexample). The output root is created, the description directory
exists, resolving the absolute path of `Src` fails: `MergeProto` is not
executed. -/
theorem Generate_merge_skipped_on_abs_failure :
    (envWith (onlyFails .AbsSrc (.val 1)) true).outcome .AbsOutput = none ∧
      (envWith (onlyFails .AbsSrc (.val 1)) true).outcome .MkdirRoot = none ∧
      (envWith (onlyFails .AbsSrc (.val 1)) true).pathExists
        (protoDir (envWith (onlyFails .AbsSrc (.val 1)) true) reqGreeter) = true ∧
      Site.MergeProto ∉ (Generate (envWith (onlyFails .AbsSrc (.val 1)) true) gen0 reqGreeter).trace ∧
      (Generate (envWith (onlyFails .AbsSrc (.val 1)) true) gen0 reqGreeter).trace =
        [.AbsOutput, .MkdirRoot, .AbsSrc] := by
  decide

/-- C9 (amended). `MergeProto` is executed iff the output root was created
(`filepath.Abs(Output)` and `MkdirIfNotExist` succeeded), the directory
`filepath.Join(abs, "desc")` exists and `filepath.Abs(Src)` succeeded; it is then
executed once, not after `g.Prepare`, with `ProtoDir = filepath.Join(abs, "desc")`
and `OutputPath` the absolute path of `Src`.  When the directory does not exist
neither `filepath.Abs(Src)` nor `MergeProto` is executed.  The parser is called
with the supplied `Src` and `Multiple`. -/
theorem Generate_merge_gate (env : Env) (g : Generator) (zctx : ZRpcContext) :
    (Site.MergeProto ∈ (Generate env g zctx).trace ↔
      env.outcome .AbsOutput = none ∧ env.outcome .MkdirRoot = none ∧
        env.pathExists (env.filepathJoin [env.filepathAbs zctx.Output, "desc"]) = true ∧
        env.outcome .AbsSrc = none) ∧
    (Site.MergeProto ∈ (Generate env g zctx).trace →
      (Generate env g zctx).trace.count .MergeProto = 1 ∧
        Site.Prepare ∉ before .MergeProto (Generate env g zctx).trace) ∧
    callAt env g zctx .MergeProto =
      .MergeProto (env.filepathJoin [env.filepathAbs zctx.Output, "desc"])
        (env.filepathAbs zctx.Src) ∧
    (env.pathExists (env.filepathJoin [env.filepathAbs zctx.Output, "desc"]) = false →
      Site.AbsSrc ∉ (Generate env g zctx).trace ∧
        Site.MergeProto ∉ (Generate env g zctx).trace) ∧
    callAt env g zctx .Parse = .Parse zctx.Src zctx.Multiple := by
  refine ⟨?_, ?_, rfl, ?_, rfl⟩
  · rw [mem_trace_iff]
    constructor
    · rintro ⟨hen, hall⟩
      refine ⟨hall .AbsOutput rfl (by decide) (by decide),
        hall .MkdirRoot rfl (by decide) (by decide), hen, hall .AbsSrc hen (by decide) (by decide)⟩
    · rintro ⟨h1, h2, hen, h3⟩
      refine ⟨hen, ?_⟩
      intro x _ hlt _
      cases x <;> first | exact h1 | exact h2 | exact h3 | (exfalso; revert hlt; decide)
  · intro hmem
    refine ⟨List.count_eq_one_of_mem (trace_nodup env g zctx) hmem, ?_⟩
    intro hin
    have := before_lt env g zctx .MergeProto hmem .Prepare hin
    revert this
    decide
  · intro hno
    constructor
    · intro h
      have := mem_trace_enabled env g zctx _ h
      simp only [enabled, protoDir, absOf] at this
      rw [hno] at this
      cases this
    · intro h
      have := mem_trace_enabled env g zctx _ h
      simp only [enabled, protoDir, absOf] at this
      rw [hno] at this
      cases this

/-! ## A successful run with the auxiliary flags off -/

/-- C10. With `MakeFile`, `DockerFile`, `UseDescDir`, `Ent` and `IsNewProject` all
false and every executed call succeeding, the calls executed are exactly: output
root (`filepath.Abs`, `MkdirIfNotExist`), the merge (`filepath.Abs(Src)`,
`MergeProto`) iff the description directory exists, `g.Prepare`, `go mod init`
iff the module name is non-empty, `ctx.Prepare`, `Parse`, `mkdir`, `GenEtc`,
`GenPb`, `GenConfig`, `GenSvc`, `GenLogic`, `GenServer`, `GenMain`, `GenCall` iff
`IsGenClient`, and the write of `.gitignore` with the template contents; each is
executed once and `Generate` returns `nil`. -/
theorem Generate_plain_success (env : Env) (g : Generator) (zctx : ZRpcContext)
    (hMake : zctx.MakeFile = false) (hDocker : zctx.DockerFile = false)
    (hDesc : zctx.UseDescDir = false) (hEnt : zctx.Ent = false)
    (hNew : zctx.IsNewProject = false)
    (hok : ∀ s ∈ (Generate env g zctx).trace, env.outcome s = none) :
    (Generate env g zctx).trace =
      [.AbsOutput, .MkdirRoot]
        ++ (if env.pathExists (env.filepathJoin [env.filepathAbs zctx.Output, "desc"])
            then [.AbsSrc, .MergeProto] else [])
        ++ [.Prepare]
        ++ (if zctx.ModuleName != "" then [.RunGoModInit] else [])
        ++ [.ctxPrepare, .Parse, .mkdir, .GenEtc, .GenPb, .GenConfig, .GenSvc, .GenLogic,
            .GenServer, .GenMain]
        ++ (if zctx.IsGenClient then [.GenCall] else [])
        ++ [.WriteGitignore] ∧
    (∀ s ∈ (Generate env g zctx).trace, (Generate env g zctx).trace.count s = 1) ∧
    callAt env g zctx .WriteGitignore =
      .WriteStringToFile (env.filepathJoin [env.filepathAbs zctx.Output, ".gitignore"])
        env.GitIgnoreTmpl false ∧
    (Generate env g zctx).ret = none := by
  rcases Generate_cases env g zctx with ⟨ht, hret, -⟩ | ⟨pre, f, post, e, -, ht, -, -, hfo, -⟩
  · refine ⟨?_, ?_, rfl, hret⟩
    · rw [ht]
      simp [pipeline, protoDir, absOf, hMake, hDocker, hDesc, hEnt, hNew]
    · intro s hs
      exact List.count_eq_one_of_mem (trace_nodup env g zctx) hs
  · exfalso
    have := hok f (by rw [ht]; simp)
    rw [hfo] at this
    cases this

/-- C10 at the end-to-end scenario: module name `greeter`, client generation on,
auxiliary flags off, no description directory, every call succeeding. -/
theorem Generate_plain_success_witness :
    (Generate (envWith allSucceed false) gen0 reqGreeter).trace =
      [.AbsOutput, .MkdirRoot]
        ++ (if (envWith allSucceed false).pathExists
              ((envWith allSucceed false).filepathJoin
                [(envWith allSucceed false).filepathAbs reqGreeter.Output, "desc"])
            then [.AbsSrc, .MergeProto] else [])
        ++ [.Prepare]
        ++ (if reqGreeter.ModuleName != "" then [.RunGoModInit] else [])
        ++ [.ctxPrepare, .Parse, .mkdir, .GenEtc, .GenPb, .GenConfig, .GenSvc, .GenLogic,
            .GenServer, .GenMain]
        ++ (if reqGreeter.IsGenClient then [.GenCall] else [])
        ++ [.WriteGitignore] ∧
    (∀ s ∈ (Generate (envWith allSucceed false) gen0 reqGreeter).trace,
      (Generate (envWith allSucceed false) gen0 reqGreeter).trace.count s = 1) ∧
    callAt (envWith allSucceed false) gen0 reqGreeter .WriteGitignore =
      .WriteStringToFile ((envWith allSucceed false).filepathJoin
          [(envWith allSucceed false).filepathAbs reqGreeter.Output, ".gitignore"])
        (envWith allSucceed false).GitIgnoreTmpl false ∧
    (Generate (envWith allSucceed false) gen0 reqGreeter).ret = none :=
  Generate_plain_success (envWith allSucceed false) gen0 reqGreeter rfl rfl rfl rfl rfl
    (by intro s _; rfl)

end generator
